import Mathlib

/-!
Verification of the CITA authority-round construction glue and the
cita-database RocksDB wrapper, as a shallow embedding in Lean 4.

Part 1: the `cita-database` key-value wrapper (`src/cita-database/src/rocksdb.rs`).
The wrapper logic (column lookup, length checks, batching, `is_some` projection)
is translated from the source.  The underlying storage engine (the third-party
rocksdb `put_cf` / `get_cf` / `delete_cf` calls) is modelled from the spec as a
narrow get/put key-value contract: a map from (column, key) to an optional value.
-/

/-- The seven data categories of `cita-database` (`DataCategory` in
`src/cita-database/src/database.rs`, used by `rocksdb.rs`). -/
inductive DataCategory where
  | State
  | Headers
  | Bodies
  | Extra
  | Trace
  | AccountBloom
  | Other
deriving DecidableEq

/-- Error type of the database layer (`DatabaseError`): `NotFound` (missing
column family), `InvalidData` (e.g. mismatched batch lengths), `Internal`
(wrapped rocksdb error). -/
inductive DatabaseError where
  | NotFound
  | InvalidData
  | Internal (msg : String)
deriving DecidableEq

/-- `map_data_category` from `rocksdb.rs`: maps each category to its rocksdb
column-family name (`col0` .. `col6`). -/
def map_data_category : DataCategory → String
  | DataCategory.State => "col0"
  | DataCategory.Headers => "col1"
  | DataCategory.Bodies => "col2"
  | DataCategory.Extra => "col3"
  | DataCategory.Trace => "col4"
  | DataCategory.AccountBloom => "col5"
  | DataCategory.Other => "col6"

/-- Modelled from the spec: the state of the external storage engine behind the
narrow get/put contract.  `cols` is the set of column families the database was
opened with (`cf_handle` succeeds exactly on these); `data` is the key-value
content of each column, a map from column name and key (a byte vector, modelled
as `List Nat`) to an optional stored value. -/
structure DBState where
  cols : List String
  data : String → List Nat → Option (List Nat)

/-- `get_column` from `rocksdb.rs`: `cf_handle(map_data_category(category))`,
`DatabaseError::NotFound` when the column family does not exist. -/
def get_column (s : DBState) (category : DataCategory) : Except DatabaseError String :=
  if map_data_category category ∈ s.cols then Except.ok (map_data_category category)
  else Except.error DatabaseError.NotFound

/-- Modelled from the spec: the storage engine read (`get_cf`). -/
def storeGet (s : DBState) (col : String) (key : List Nat) : Option (List Nat) :=
  s.data col key

/-- Modelled from the spec: the storage engine write (`put_cf`), updating one
key of one column and leaving everything else unchanged. -/
def storePut (s : DBState) (col : String) (key value : List Nat) : DBState :=
  { s with data := fun c k => if c = col ∧ k = key then some value else s.data c k }

/-- Modelled from the spec: the storage engine delete (`delete_cf`). -/
def storeDelete (s : DBState) (col : String) (key : List Nat) : DBState :=
  { s with data := fun c k => if c = col ∧ k = key then none else s.data c k }

/-- Modelled from the spec: applying a write batch of puts (`WriteBatch` +
`db.write`), one `storePut` per (key, value) pair in order. -/
def storePutBatch (s : DBState) (col : String) (pairs : List (List Nat × List Nat)) : DBState :=
  pairs.foldl (fun acc p => storePut acc col p.1 p.2) s

namespace RocksDB

/-- `RocksDB::get`: resolve the column, then read the key; `Ok(None)` when the
key is absent. -/
def get (s : DBState) (category : DataCategory) (key : List Nat) :
    Except DatabaseError (Option (List Nat)) :=
  match get_column s category with
  | Except.error e => Except.error e
  | Except.ok col => Except.ok (storeGet s col key)

/-- `RocksDB::get_batch`: resolve the column, then read every key in order. -/
def get_batch (s : DBState) (category : DataCategory) (keys : List (List Nat)) :
    Except DatabaseError (List (Option (List Nat))) :=
  match get_column s category with
  | Except.error e => Except.error e
  | Except.ok col => Except.ok (keys.map (fun key => storeGet s col key))

/-- `RocksDB::insert`: resolve the column, then write the pair.  Returned as
(result, post-state): on error the database state is unchanged. -/
def insert (s : DBState) (category : DataCategory) (key value : List Nat) :
    Except DatabaseError Unit × DBState :=
  match get_column s category with
  | Except.error e => (Except.error e, s)
  | Except.ok col => (Except.ok (), storePut s col key value)

/-- `RocksDB::insert_batch`: reject mismatched key/value list lengths with
`InvalidData` before touching the database; otherwise resolve the column and
apply the write batch. -/
def insert_batch (s : DBState) (category : DataCategory)
    (keys values : List (List Nat)) : Except DatabaseError Unit × DBState :=
  if keys.length ≠ values.length then (Except.error DatabaseError.InvalidData, s)
  else
    match get_column s category with
    | Except.error e => (Except.error e, s)
    | Except.ok col => (Except.ok (), storePutBatch s col (keys.zip values))

/-- `RocksDB::contains`: resolve the column, read the key, return `is_some`. -/
def contains (s : DBState) (category : DataCategory) (key : List Nat) :
    Except DatabaseError Bool :=
  match get_column s category with
  | Except.error e => Except.error e
  | Except.ok col => Except.ok (storeGet s col key).isSome

/-- `RocksDB::remove`: resolve the column, then delete the key. -/
def remove (s : DBState) (category : DataCategory) (key : List Nat) :
    Except DatabaseError Unit × DBState :=
  match get_column s category with
  | Except.error e => (Except.error e, s)
  | Except.ok col => (Except.ok (), storeDelete s col key)

end RocksDB

/-- A concrete database state for witnesses: all seven columns open, empty. -/
def dbEmpty : DBState :=
  { cols := ["col0", "col1", "col2", "col3", "col4", "col5", "col6"],
    data := fun _ _ => none }

lemma get_column_storePut (s : DBState) (col : String) (k v : List Nat)
    (category : DataCategory) :
    get_column (storePut s col k v) category = get_column s category := rfl

lemma get_column_storeDelete (s : DBState) (col : String) (k : List Nat)
    (category : DataCategory) :
    get_column (storeDelete s col k) category = get_column s category := rfl

lemma storeGet_storePut_same (s : DBState) (col : String) (k v : List Nat) :
    storeGet (storePut s col k v) col k = some v := by
  simp [storeGet, storePut]

lemma map_data_category_injective (c1 c2 : DataCategory)
    (h : map_data_category c1 = map_data_category c2) : c1 = c2 := by
  cases c1 <;> cases c2 <;> simp_all [map_data_category]

lemma RocksDB.get_of_column (s : DBState) (category : DataCategory)
    (key : List Nat) (col : String) (hc : get_column s category = Except.ok col) :
    RocksDB.get s category key = Except.ok (storeGet s col key) := by
  unfold RocksDB.get
  rw [hc]

lemma RocksDB.contains_of_column (s : DBState) (category : DataCategory)
    (key : List Nat) (col : String) (hc : get_column s category = Except.ok col) :
    RocksDB.contains s category key = Except.ok (storeGet s col key).isSome := by
  unfold RocksDB.contains
  rw [hc]

lemma column_name (s : DBState) (category : DataCategory) (col : String)
    (hc : get_column s category = Except.ok col) :
    col = map_data_category category := by
  unfold get_column at hc
  by_cases hm : map_data_category category ∈ s.cols
  · rw [if_pos hm] at hc
    exact ((Except.ok.injEq _ _).mp hc).symm
  · rw [if_neg hm] at hc
    exact absurd hc (by simp)

/-- C3: if `insert(category, key, value)` succeeds, a subsequent
`get(category, key)` returns `Ok(Some(value))`. -/
theorem insert_get_roundtrip (s : DBState) (category : DataCategory)
    (key value : List Nat) (s2 : DBState)
    (h : RocksDB.insert s category key value = (Except.ok (), s2)) :
    RocksDB.get s2 category key = Except.ok (some value) := by
  unfold RocksDB.insert at h
  cases hc : get_column s category with
  | error e => rw [hc] at h; simp at h
  | ok col =>
    rw [hc] at h
    have hs2 : storePut s col key value = s2 := by
      simpa using congrArg Prod.snd h
    subst hs2
    rw [RocksDB.get_of_column _ _ _ col (by rw [get_column_storePut]; exact hc)]
    rw [storeGet_storePut_same]

/-- C3 witness: inserting at a concrete key in the empty database and reading
it back. -/
theorem insert_get_roundtrip_witness :
    RocksDB.get (RocksDB.insert dbEmpty DataCategory.State [1, 2] [3]).2
      DataCategory.State [1, 2] = Except.ok (some [3]) :=
  insert_get_roundtrip dbEmpty DataCategory.State [1, 2] [3] _ rfl

/-- C4: `insert_batch` with key and value lists of different lengths returns
`Err(DatabaseError::InvalidData)` and leaves the database state unchanged. -/
theorem insert_batch_mismatch (s : DBState) (category : DataCategory)
    (keys values : List (List Nat)) (h : keys.length ≠ values.length) :
    RocksDB.insert_batch s category keys values =
      (Except.error DatabaseError.InvalidData, s) := by
  unfold RocksDB.insert_batch
  rw [if_pos h]

/-- C4 witness: one key against zero values, as in the repository test. -/
theorem insert_batch_mismatch_witness :
    RocksDB.insert_batch dbEmpty DataCategory.State [[3]] [] =
      (Except.error DatabaseError.InvalidData, dbEmpty) :=
  insert_batch_mismatch dbEmpty DataCategory.State [[3]] [] (by decide)

/-- C8: if `remove(category, key)` succeeds, a subsequent `get(category, key)`
returns `Ok(None)`, and reads of any other (category, key) pair are
unaffected. -/
theorem remove_get_none (s : DBState) (category : DataCategory)
    (key : List Nat) (s2 : DBState)
    (h : RocksDB.remove s category key = (Except.ok (), s2)) :
    RocksDB.get s2 category key = Except.ok none ∧
    ∀ category2 key2, ¬ (category2 = category ∧ key2 = key) →
      RocksDB.get s2 category2 key2 = RocksDB.get s category2 key2 := by
  unfold RocksDB.remove at h
  cases hc : get_column s category with
  | error e => rw [hc] at h; simp at h
  | ok col =>
    rw [hc] at h
    have hs2 : storeDelete s col key = s2 := by
      simpa using congrArg Prod.snd h
    subst hs2
    constructor
    · rw [RocksDB.get_of_column _ _ _ col (by rw [get_column_storeDelete]; exact hc)]
      simp [storeGet, storeDelete]
    · intro category2 key2 hne
      cases hc2 : get_column s category2 with
      | error e =>
        unfold RocksDB.get
        rw [get_column_storeDelete, hc2]
      | ok col2 =>
        rw [RocksDB.get_of_column _ _ _ col2
            (by rw [get_column_storeDelete]; exact hc2)]
        rw [RocksDB.get_of_column _ _ _ col2 hc2]
        have hnotsame : ¬ (col2 = col ∧ key2 = key) := by
          rintro ⟨h1, h2⟩
          apply hne
          refine ⟨?_, h2⟩
          apply map_data_category_injective
          rw [← column_name s category2 col2 hc2, ← column_name s category col hc, h1]
        simp [storeGet, storeDelete, hnotsame]

/-- C8 witness: remove a key; the read of that key returns none and a read in
another category is unaffected. -/
theorem remove_get_none_witness :
    RocksDB.get (RocksDB.remove dbEmpty DataCategory.State [7]).2
        DataCategory.State [7] = Except.ok none ∧
    RocksDB.get (RocksDB.remove dbEmpty DataCategory.State [7]).2
        DataCategory.Headers [7] =
      RocksDB.get dbEmpty DataCategory.Headers [7] := by
  have h := remove_get_none dbEmpty DataCategory.State [7] _ rfl
  exact ⟨h.1, h.2 DataCategory.Headers [7] (by simp)⟩

/-- C9: `contains(category, key)` answers `Ok(true)` exactly when
`get(category, key)` answers `Ok(Some _)`, and `Ok(false)` exactly when `get`
answers `Ok(None)`. -/
theorem contains_agrees_with_get (s : DBState) (category : DataCategory)
    (key : List Nat) :
    (RocksDB.contains s category key = Except.ok true ↔
      ∃ v, RocksDB.get s category key = Except.ok (some v)) ∧
    (RocksDB.contains s category key = Except.ok false ↔
      RocksDB.get s category key = Except.ok none) := by
  cases hc : get_column s category with
  | error e =>
    unfold RocksDB.contains RocksDB.get
    rw [hc]
    simp
  | ok col =>
    rw [RocksDB.contains_of_column _ _ _ col hc, RocksDB.get_of_column _ _ _ col hc]
    cases hv : storeGet s col key <;> simp

/-- C9 witness: in the empty database, `contains` answers false and `get`
answers none at a concrete key, by the second equivalence. -/
theorem contains_agrees_with_get_witness :
    RocksDB.contains dbEmpty DataCategory.State [9] = Except.ok false :=
  (contains_agrees_with_get dbEmpty DataCategory.State [9]).2.mpr rfl

/-- C10: a successful `get_batch(category, keys)` returns one element per key,
and its i-th element is exactly what `get(category, keys[i])` returns. -/
theorem get_batch_eq_gets (s : DBState) (category : DataCategory)
    (keys : List (List Nat)) (res : List (Option (List Nat)))
    (h : RocksDB.get_batch s category keys = Except.ok res) :
    res.length = keys.length ∧
    ∀ i (hi : i < keys.length) (hr : i < res.length),
      RocksDB.get s category (keys.get ⟨i, hi⟩) = Except.ok (res.get ⟨i, hr⟩) := by
  unfold RocksDB.get_batch at h
  cases hc : get_column s category with
  | error e => rw [hc] at h; simp at h
  | ok col =>
    rw [hc] at h
    have hres : res = keys.map (fun key => storeGet s col key) := by
      simpa using h.symm
    subst hres
    refine ⟨by simp, ?_⟩
    intro i hi hr
    rw [RocksDB.get_of_column _ _ _ col hc]
    simp

/-- C10 witness: the first element of a two-key batch read over the empty
database equals the corresponding single read. -/
theorem get_batch_eq_gets_witness :
    RocksDB.get dbEmpty DataCategory.State ([[1], [2]].get ⟨0, by decide⟩) =
      Except.ok ([none, none].get ⟨0, by decide⟩) :=
  (get_batch_eq_gets dbEmpty DataCategory.State [[1], [2]] [none, none] rfl).2
    0 (by decide) (by decide)

/-!
Part 2: engine construction (`src/consensus/authority_round/src/core/spec.rs`).
`Spec::engine` and `Spec::load` are translated from the source.  The engine
configuration types and `AuthorityRound::new` live outside `src/` and are
modelled from the spec.  A Rust `panic!` / `.expect(..)` is embedded as the
`Outcome.crash` constructor, distinct from an error returned to the caller
(`Outcome.err`).
-/

/-- Modelled from the spec: `AuthorityRoundParams` — step duration (positive
integer, seconds) and an ordered validator set (one or more identities, each a
public-key-derived address, modelled as `Nat`). -/
structure AuthorityRoundParams where
  step_duration : Nat
  validators : List Nat
deriving DecidableEq

/-- Modelled from the spec: the constructed AuthorityRound engine, holding its
immutable parameters. -/
structure AuthorityRound where
  params : AuthorityRoundParams
deriving DecidableEq

/-- Modelled from the spec: `AuthorityRound::new` (defined outside `src/`)
rejects an empty or duplicate validator set and a non-positive step duration
with `InvalidConfiguration`, and otherwise constructs the engine. -/
def AuthorityRound.new (p : AuthorityRoundParams) : Except String AuthorityRound :=
  if p.validators.isEmpty ∨ ¬ p.validators.Nodup ∨ p.step_duration = 0 then
    Except.error "InvalidConfiguration"
  else Except.ok { params := p }

/-- The engine-kind discriminant of the configuration document (`EngineJson`):
either an AuthorityRound section with its parameters, or some other engine
kind (the wildcard arm of the source's match). -/
inductive EngineJson where
  | AuthorityRound (params : AuthorityRoundParams)
  | OtherEngine
deriving DecidableEq

/-- The parsed spec document (`SpecJson`): a name and an engine section. -/
structure SpecJson where
  name : String
  engine : EngineJson
deriving DecidableEq

/-- Result of running a fragment of Rust code that may return normally, return
an error to the caller, or panic. -/
inductive Outcome (α : Type) where
  | ok (value : α)
  | err (message : String)
  | crash (message : String)
deriving DecidableEq

/-- `Spec::engine` from `spec.rs`: on an AuthorityRound section, construct the
engine and `.expect(..)` the result (a panic on failure, with the source's
message); on any other engine kind, `panic!` with the same message. -/
def Spec.engine (engine_json : EngineJson) : Outcome AuthorityRound :=
  match engine_json with
  | EngineJson.AuthorityRound authority_round =>
    match AuthorityRound.new authority_round with
    | Except.ok e => Outcome.ok e
    | Except.error _ =>
      Outcome.crash "Failed to start AuthorityRound consensus engine."
  | EngineJson.OtherEngine =>
    Outcome.crash "Failed to start AuthorityRound consensus engine."

/-- The constructed `Spec` (name and engine; the notification channel receiver
is a concurrency artefact and is not modelled). -/
structure Spec where
  name : String
  authorityEngine : AuthorityRound

/-- `From<SpecJson> for Spec`: builds the `Spec` from the parsed document; a
panic inside `Spec::engine` propagates. -/
def Spec.fromJson (s : SpecJson) : Outcome Spec :=
  match Spec.engine s.engine with
  | Outcome.ok e => Outcome.ok { name := s.name, authorityEngine := e }
  | Outcome.err m => Outcome.err m
  | Outcome.crash m => Outcome.crash m

/-- `Spec::load` from `spec.rs`, parameterised by the result of
`SpecJson::load(reader)` (the external parser): a successful parse is
converted with `into()`, any parse failure becomes
`Err("Spec json is invalid")`. -/
def Spec.load (parsed : Except String SpecJson) : Outcome Spec :=
  match parsed with
  | Except.ok s => Spec.fromJson s
  | Except.error _ => Outcome.err "Spec json is invalid"

/-- C1 counterexample: on a configuration whose engine kind is not
AuthorityRound, `Spec::engine` panics with the source's message instead of
returning a descriptive error to the caller. -/
theorem spec_engine_crash_counterexample :
    Spec.engine EngineJson.OtherEngine =
      Outcome.crash "Failed to start AuthorityRound consensus engine." := rfl

/-- C1 (amended): for every configuration whose engine kind is not
AuthorityRound, or whose AuthorityRound parameters are rejected by
`AuthorityRound::new`, engine construction via `Spec::engine` panics with the
descriptive message "Failed to start AuthorityRound consensus engine." rather
than returning an error to the caller. -/
theorem spec_engine_crash (ej : EngineJson)
    (h : ∀ p, ej = EngineJson.AuthorityRound p →
      ∃ m, AuthorityRound.new p = Except.error m) :
    Spec.engine ej =
      Outcome.crash "Failed to start AuthorityRound consensus engine." := by
  cases ej with
  | OtherEngine => rfl
  | AuthorityRound p =>
    obtain ⟨m, hm⟩ := h p rfl
    simp [Spec.engine, hm]

/-- C1 (amended) witness: an AuthorityRound section with an empty validator
set panics. -/
theorem spec_engine_crash_witness :
    Spec.engine (EngineJson.AuthorityRound { step_duration := 1, validators := [] }) =
      Outcome.crash "Failed to start AuthorityRound consensus engine." :=
  spec_engine_crash (EngineJson.AuthorityRound { step_duration := 1, validators := [] })
    (fun p hp => by
      cases hp
      exact ⟨"InvalidConfiguration", rfl⟩)

/-- C2: whenever the reader's content does not parse, `Spec::load` returns
`Err("Spec json is invalid")` (not a panic), and it returns `Ok` only when the
document parsed successfully. -/
theorem spec_load_invalid (parsed : Except String SpecJson) :
    (∀ e, parsed = Except.error e →
      Spec.load parsed = Outcome.err "Spec json is invalid") ∧
    (∀ sp, Spec.load parsed = Outcome.ok sp → ∃ j, parsed = Except.ok j) := by
  constructor
  · intro e he
    subst he
    rfl
  · intro sp h
    cases parsed with
    | ok j => exact ⟨j, rfl⟩
    | error e =>
      unfold Spec.load at h
      simp at h

/-- C2 witness: a concrete failed parse yields the error string. -/
theorem spec_load_invalid_witness :
    Spec.load (Except.error "unexpected token") = Outcome.err "Spec json is invalid" :=
  (spec_load_invalid (Except.error "unexpected token")).1 "unexpected token" rfl

/-!
Part 3: the consensus core (ValidatorSet, StepClock, SealCodec,
AuthorityRoundEngine operations).  This repository snapshot contains only the
construction glue under `src/`; the rotation, clock and seal logic is modelled
from the spec (sections 3, 4.1, 4.2, 4.3, 4.4).
-/

/-- Modelled from the spec: a ValidatorSet is a mapping from epoch-start block
number to an ordered list of identities, stored as a list of
(effective-height, list) entries sorted by height ascending. -/
structure ValidatorSet where
  transitions : List (Nat × List Nat)
deriving DecidableEq

/-- Modelled from the spec: consult transition points in ascending order and
select the latest transition at or before the height; `acc` carries the latest
list seen so far. -/
def lookup_transitions : List (Nat × List Nat) → Nat → List Nat → List Nat
  | [], _, acc => acc
  | (h, vals) :: rest, height, acc =>
    if h ≤ height then lookup_transitions rest height vals else acc

/-- Modelled from the spec: `validators_at(height)` resolves the applicable
ordered list for a height. -/
def ValidatorSet.validators_at (vs : ValidatorSet) (height : Nat) : List Nat :=
  lookup_transitions vs.transitions height []

/-- Modelled from the spec: `proposer_for(height, step)` is the element of the
applicable validator list at index `step mod len` (0 as the out-of-range
default, unused when the list is non-empty). -/
def ValidatorSet.proposer_for (vs : ValidatorSet) (height step : Nat) : Nat :=
  (vs.validators_at height).getD (step % (vs.validators_at height).length) 0

lemma proposer_for_mem (vs : ValidatorSet) (height step : Nat)
    (h : vs.validators_at height ≠ []) :
    vs.proposer_for height step ∈ vs.validators_at height := by
  unfold ValidatorSet.proposer_for
  have hlt : step % (vs.validators_at height).length < (vs.validators_at height).length :=
    Nat.mod_lt step (List.length_pos.mpr h)
  rw [List.getD_eq_getElem _ _ hlt]
  exact List.getElem_mem hlt

/-- A concrete two-epoch validator set for witnesses: three validators from
genesis, five from height 1000. -/
def exVS : ValidatorSet :=
  { transitions := [(0, [10, 11, 12]), (1000, [1, 2, 3, 4, 5])] }

/-- C5: for all heights H and steps S with a non-empty applicable validator
list, `proposer_for(H, S)` is `validators_at(H)[S mod len(validators_at(H))]`. -/
theorem proposer_for_rule (vs : ValidatorSet) (H S : Nat)
    (h : vs.validators_at H ≠ []) :
    vs.proposer_for H S =
      (vs.validators_at H).get
        ⟨S % (vs.validators_at H).length, Nat.mod_lt S (List.length_pos.mpr h)⟩ := by
  unfold ValidatorSet.proposer_for
  exact List.getD_eq_getElem _ _ (Nat.mod_lt S (List.length_pos.mpr h))

/-- C5 witness: at the recorded transition boundary (height 1000, set size 5),
step 7 selects the validator at index 2. -/
theorem proposer_for_rule_witness :
    exVS.validators_at 1000 ≠ [] ∧
    exVS.proposer_for 1000 7 =
      (exVS.validators_at 1000).get
        ⟨7 % (exVS.validators_at 1000).length, by decide⟩ :=
  ⟨by decide, proposer_for_rule exVS 1000 7 (by decide)⟩

/-- Modelled from the spec: StepClock parameters — genesis time and a fixed
step duration (positive integer seconds); times are seconds. -/
structure StepClock where
  genesis : Nat
  duration : Nat
deriving DecidableEq

/-- Modelled from the spec: the raw step is
`floor((now - genesis_time) / step_duration)`, clamping to 0 before genesis. -/
def raw_step (c : StepClock) (now : Nat) : Nat :=
  if now < c.genesis then 0 else (now - c.genesis) / c.duration

/-- Modelled from the spec: the engine's mutable cursor holding the highest
step this instance has observed. -/
structure ClockState where
  maxObserved : Nat
deriving DecidableEq

/-- Modelled from the spec: `current_step(now)` reports the raw step clamped
to the previously observed maximum (it never regresses a step number it has
already reported), and records the reported step as the new maximum. -/
def current_step (c : StepClock) (st : ClockState) (now : Nat) : Nat × ClockState :=
  let s := max (raw_step c now) st.maxObserved
  (s, { maxObserved := s })

/-- Folding `current_step` over a sequence of `now` inputs, collecting the
reported steps. -/
def run_clock (c : StepClock) : ClockState → List Nat → List Nat
  | _, [] => []
  | st, n :: rest =>
    (current_step c st n).1 :: run_clock c (current_step c st n).2 rest

lemma run_clock_chain (c : StepClock) :
    ∀ (nows : List Nat) (st : ClockState),
      List.Chain' (· ≤ ·) (run_clock c st nows) ∧
      ∀ x ∈ run_clock c st nows, st.maxObserved ≤ x := by
  intro nows
  induction nows with
  | nil => intro st; exact ⟨List.chain'_nil, by intro x hx; simp [run_clock] at hx⟩
  | cons n rest ih =>
    intro st
    have hstep : st.maxObserved ≤ (current_step c st n).1 := le_max_right _ _
    obtain ⟨hchain, hmem⟩ := ih (current_step c st n).2
    have hcursor : (current_step c st n).2.maxObserved = (current_step c st n).1 := rfl
    constructor
    · rw [run_clock]
      rw [List.chain'_cons']
      constructor
      · intro y hy
        have : y ∈ run_clock c (current_step c st n).2 rest :=
          List.mem_of_mem_head? hy
        have := hmem y this
        rw [hcursor] at this
        exact this
      · exact hchain
    · intro x hx
      rw [run_clock] at hx
      rcases List.mem_cons.mp hx with h1 | h2
      · rw [h1]; exact hstep
      · exact le_trans hstep (hcursor ▸ hmem x h2)

/-- C7: the sequence of `current_step` outputs is non-decreasing for any
sequence of `now` inputs (in particular any non-decreasing one, and even under
clock anomalies, by clamping to the previously observed maximum); querying the
same `now` twice yields the same step; and the raw step clamps to 0 before
genesis. -/
theorem current_step_monotone (c : StepClock) (st : ClockState)
    (nows : List Nat) (n : Nat) :
    List.Chain' (· ≤ ·) (run_clock c st nows) ∧
    (current_step c (current_step c st n).2 n).1 = (current_step c st n).1 ∧
    (n < c.genesis → raw_step c n = 0) := by
  refine ⟨(run_clock_chain c nows st).1, ?_, ?_⟩
  · show max (raw_step c n) (max (raw_step c n) st.maxObserved)
      = max (raw_step c n) st.maxObserved
    rw [← max_assoc, max_self]
  · intro h
    unfold raw_step
    rw [if_pos h]

/-- C7 witness: a clock with genesis 10 and duration 5, a backward-jumping
query sequence, and a pre-genesis query. -/
theorem current_step_monotone_witness :
    List.Chain' (· ≤ ·) (run_clock { genesis := 10, duration := 5 } { maxObserved := 0 }
      [12, 27, 13]) ∧
    raw_step { genesis := 10, duration := 5 } 3 = 0 :=
  ⟨(current_step_monotone { genesis := 10, duration := 5 } { maxObserved := 0 }
      [12, 27, 13] 3).1,
   (current_step_monotone { genesis := 10, duration := 5 } { maxObserved := 0 }
      [12, 27, 13] 3).2.2 (by decide)⟩

/-- Modelled from the spec: the header preimage fields the seal binds — the
chain/engine identifier, the block content hash, and the parent's step (from
which the verifier recovers the step bound the declared step must exceed). -/
structure Header where
  chain_id : Nat
  content_hash : Nat
  parent_step : Nat
deriving DecidableEq

/-- Modelled from the spec: an abstract signature over the canonical encoding
of (chain/engine identifier, step, block content hash), recording the signer
identity (signing is deterministic; verification recomputes the encoding and
checks it against the expected identity). -/
structure Sig where
  signer : Nat
  signed_chain : Nat
  signed_step : Nat
  signed_hash : Nat
deriving DecidableEq

/-- Modelled from the spec: a Seal is the declared step plus the signature
(empty-step proofs are not involved in the round-trip property). -/
structure Seal where
  step : Nat
  signature : Sig
deriving DecidableEq

/-- The seal verification error taxonomy of the spec. -/
inductive SealError where
  | BadSignature
  | UnknownAuthority
  | StepMismatch
  | MissingEmptyStepProof
  | NotProposer
deriving DecidableEq

/-- Modelled from the spec: `SealCodec.sign(step, private_key)` produces a
signature over the canonical encoding of (chain identifier, step, content
hash); the key is identified with the authority identity it derives. -/
def SealCodec.sign (step : Nat) (key : Nat) (header : Header) : Seal :=
  { step := step,
    signature :=
      { signer := key, signed_chain := header.chain_id,
        signed_step := step, signed_hash := header.content_hash } }

/-- Modelled from the spec: `SealCodec.verify(header, seal, expected_identity)`
fails with `StepMismatch` when the declared step is not strictly greater than
the parent's step, `UnknownAuthority` when the signer is not in the validator
set applicable at that height, `BadSignature` when the signature does not
match the expected identity over the recomputed canonical encoding, and
succeeds otherwise. -/
def SealCodec.verify (vs : ValidatorSet) (height : Nat) (header : Header)
    (sl : Seal) (expected : Nat) : Except SealError Unit :=
  if ¬ header.parent_step < sl.step then Except.error SealError.StepMismatch
  else if sl.signature.signer ∉ vs.validators_at height then
    Except.error SealError.UnknownAuthority
  else if sl.signature ≠
      { signer := expected, signed_chain := header.chain_id,
        signed_step := sl.step, signed_hash := header.content_hash : Sig } then
    Except.error SealError.BadSignature
  else Except.ok ()

/-- Modelled from the spec: `is_proposer(height, step)` — the local identity
equals `proposer_for(height, step)`. -/
def is_proposer (vs : ValidatorSet) (self height step : Nat) : Bool :=
  self = vs.proposer_for height step

/-- Modelled from the spec: `generate_seal` is only callable by the proposer
(`NotProposer` otherwise) and delegates to `SealCodec.sign`. -/
def generate_seal (vs : ValidatorSet) (self : Nat) (header : Header)
    (height step : Nat) : Except SealError Seal :=
  if is_proposer vs self height step then
    Except.ok (SealCodec.sign step self header)
  else Except.error SealError.NotProposer

/-- Modelled from the spec: `verify_seal(header, height)` delegates to
`SealCodec.verify` against `proposer_for(height, declared_step)`. -/
def verify_seal (vs : ValidatorSet) (header : Header) (height : Nat)
    (sl : Seal) : Except SealError Unit :=
  SealCodec.verify vs height header sl (vs.proposer_for height sl.step)

/-- C6: a seal produced by a successful `generate_seal` call made by the
legitimate proposer for (H, S) — with a non-empty validator list at H and a
declared step beyond the parent's — passes `verify_seal` for the same
(H, S, header). -/
theorem generate_verify_roundtrip (vs : ValidatorSet) (self H S : Nat)
    (header : Header) (sl : Seal)
    (hne : vs.validators_at H ≠ [])
    (hstep : header.parent_step < S)
    (hgen : generate_seal vs self header H S = Except.ok sl) :
    verify_seal vs header H sl = Except.ok () := by
  unfold generate_seal at hgen
  by_cases hp : is_proposer vs self H S
  · rw [if_pos hp] at hgen
    have hseal : sl = SealCodec.sign S self header := by
      exact ((Except.ok.injEq _ _).mp hgen).symm
    have hself : self = vs.proposer_for H S := by
      unfold is_proposer at hp
      exact of_decide_eq_true hp
    subst hseal
    unfold verify_seal SealCodec.verify SealCodec.sign
    rw [if_neg (by simp; exact hstep)]
    rw [if_neg (by
      simp only [Decidable.not_not]
      show self ∈ vs.validators_at H
      rw [hself]
      exact proposer_for_mem vs H S hne)]
    rw [if_neg (by
      simp only [Decidable.not_not]
      show ({ signer := self, signed_chain := header.chain_id,
              signed_step := S, signed_hash := header.content_hash : Sig } = _)
      rw [hself])]
  · rw [if_neg hp] at hgen
    exact absurd hgen (by simp)

/-- C6 witness: validator 3 of the five-member epoch of `exVS` is the proposer
for (height 1000, step 7); its generated seal verifies. -/
theorem generate_verify_roundtrip_witness :
    verify_seal exVS { chain_id := 1, content_hash := 42, parent_step := 6 } 1000
      (SealCodec.sign 7 3 { chain_id := 1, content_hash := 42, parent_step := 6 }) =
      Except.ok () :=
  generate_verify_roundtrip exVS 3 1000 7
    { chain_id := 1, content_hash := 42, parent_step := 6 }
    (SealCodec.sign 7 3 { chain_id := 1, content_hash := 42, parent_step := 6 })
    (by decide) (by decide) rfl
